import Mathlib

/-!
Shallow embedding of OpenTTD's Unix crash-log handler
(`src/os/unix/crashlog_unix.cpp`) and proofs of the specification claims.

The handler is signal-handler code: it mutates the process signal-disposition
table, prints escape messages, builds a report, and aborts.  We embed it as a
pure function from an environment (the boolean escape conditions and the
compile-time dump facility) to the ordered trace of observable actions it
performs.  The section producers (`LogOSVersion`, `LogError`, `LogStacktrace`)
are pure string transformers on the append-only report buffer, parameterised
by the results of the OS queries they make.
-/

namespace CrashlogUnix

/-! ### Signal numbers and the signal table -/

/-- `SIGSEGV` on Linux. -/
def SIGSEGV : Nat := 11
/-- `SIGABRT` on Linux. -/
def SIGABRT : Nat := 6
/-- `SIGFPE` on Linux. -/
def SIGFPE : Nat := 8
/-- `SIGBUS` on Linux. -/
def SIGBUS : Nat := 7
/-- `SIGILL` on Linux. -/
def SIGILL : Nat := 4

/-- `static const int _signals_to_handle[] = { SIGSEGV, SIGABRT, SIGFPE, SIGBUS, SIGILL };` -/
def signals_to_handle : List Nat := [SIGSEGV, SIGABRT, SIGFPE, SIGBUS, SIGILL]

/-- A disposition in the process signal table: the OS default (`SIG_DFL`),
the crash handler `HandleCrash`, or some other handler. -/
inductive SigHandler where
  | SIG_DFL : SigHandler
  | handleCrash : SigHandler
  | other : Nat → SigHandler
deriving DecidableEq

/-- The process-wide signal-disposition table. -/
def SigTable : Type := Nat → SigHandler

/-- `signal(signum, h)`: update the disposition of one signal. -/
def signal (t : SigTable) (signum : Nat) (h : SigHandler) : SigTable :=
  fun s => if s = signum then h else t s

/-- `CrashLog::InitialiseCrashLog`: `for i in _signals_to_handle: signal(*i, HandleCrash)`. -/
def InitialiseCrashLog (t : SigTable) : SigTable :=
  signals_to_handle.foldl (fun acc i => signal acc i SigHandler.handleCrash) t

/-! ### The crash-handler trace -/

/-- An output stream of the process. -/
inductive OutStream where
  | stdout : OutStream
  | stderr : OutStream
deriving DecidableEq

/-- One observable action of `HandleCrash`, in program order. -/
inductive Event where
  /-- `signal(signum, SIG_DFL)` in the disable loop. -/
  | setDefault : Nat → Event
  /-- evaluation of `_gamelog.TestEmergency()`. -/
  | checkEmergency : Event
  /-- evaluation of `SaveloadCrashWithMissingNewGRFs()`. -/
  | checkNewGRFs : Event
  /-- `fmt::print(msg)`; `fmt::print` with no file argument writes to stdout. -/
  | print : OutStream → String → Event
  /-- `CrashLogUnix log(signum); log.MakeCrashLog();` with the integer status
  returned by the dump writer inside report generation. -/
  | makeCrashLog : Nat → Int → Event
  /-- `CrashLog::AfterCrashLogCleanup()`. -/
  | cleanup : Event
  /-- `abort()`. -/
  | abort : Event
deriving DecidableEq

/-- Is the event a reset-to-default of a signal disposition? -/
def Event.isSetDefault : Event → Bool
  | .setDefault _ => true
  | _ => false

/-- Is the event a print to the given stream? -/
def Event.isPrintTo (stream : OutStream) : Event → Bool
  | .print s _ => s == stream
  | _ => false

/-- Is the event a print to any stream? -/
def Event.isPrintAny : Event → Bool
  | .print _ _ => true
  | _ => false

/-- Is the event the report/dump generation step? -/
def Event.isMakeCrashLog : Event → Bool
  | .makeCrashLog _ _ => true
  | _ => false

/-- The crash-time environment: the two escape conditions supplied by
collaborators, and whether the breakpad dump facility is compiled in and
whether its `WriteMinidump` call succeeds. -/
structure Env where
  testEmergency : Bool
  missingNewGRFs : Bool
  breakpad : Bool
  minidumpSucceeded : Bool

/-- Modelled from the spec: the base-class `CrashLog::WriteCrashDump`
(`crashlog.cpp`, not part of the given sources) reports "unsupported" as a
distinct integer status, neither the success nor the failure value, when no
native dump facility is compiled in. -/
def WriteCrashDump_base : Int := 0

/-- `CrashLogUnix::WriteCrashDump`: with breakpad compiled in, returns
`WriteMinidump(...) ? 1 : -1`; otherwise the base-class status applies. -/
def WriteCrashDump (breakpad : Bool) (minidumpSucceeded : Bool) : Int :=
  if breakpad then (if minidumpSucceeded then 1 else -1) else WriteCrashDump_base

/-- The two lines printed on the emergency-savegame escape path. -/
def emergencyMessages : List String :=
  ["A serious fault condition occurred in the game. The game will shut down.\n",
   "As you loaded an emergency savegame no crash information will be generated.\n"]

/-- The three lines printed on the missing-NewGRFs escape path. -/
def missingNewGRFsMessages : List String :=
  ["A serious fault condition occurred in the game. The game will shut down.\n",
   "As you loaded an savegame for which you do not have the required NewGRFs\n",
   "no crash information will be generated.\n"]

/-- `HandleCrash(signum)` as the ordered trace of its observable actions:
disable every handled signal, test the emergency escape, test the
missing-NewGRFs escape, and either print an escape message and abort or
generate the crash log, run the cleanup hook and abort. -/
def HandleCrash (env : Env) (signum : Nat) : List Event :=
  signals_to_handle.map Event.setDefault
  ++ Event.checkEmergency ::
    (if env.testEmergency then
      emergencyMessages.map (Event.print OutStream.stdout) ++ [Event.abort]
    else
      Event.checkNewGRFs ::
        (if env.missingNewGRFs then
          missingNewGRFsMessages.map (Event.print OutStream.stdout) ++ [Event.abort]
        else
          [Event.makeCrashLog signum (WriteCrashDump env.breakpad env.minidumpSucceeded),
           Event.cleanup, Event.abort]))

/-- Effect of one trace event on the signal-disposition table. -/
def applyEvent (t : SigTable) : Event → SigTable
  | .setDefault s => signal t s SigHandler.SIG_DFL
  | _ => t

/-- Effect of a trace on the signal-disposition table. -/
def applyEvents (t : SigTable) (es : List Event) : SigTable :=
  es.foldl applyEvent t

/-! ### The report-section producers -/

/-- The `struct utsname` fields used by `LogOSVersion`. -/
structure Utsname where
  sysname : String
  release : String
  version : String
  machine : String

/-- `CrashLogUnix::LogOSVersion`: on `uname` failure (`.error` carries the
`strerror(errno)` text) append the explanatory line and return; on success
append the four identification strings. -/
def LogOSVersion (uname : Except String Utsname) (buf : String) : String :=
  match uname with
  | .error reason => buf ++ "Could not get OS version: " ++ reason ++ "\n"
  | .ok u =>
      buf ++ "Operating system:\n Name:     " ++ u.sysname
          ++ "\n Release:  " ++ u.release
          ++ "\n Version:  " ++ u.version
          ++ "\n Machine:  " ++ u.machine ++ "\n"

/-- Spec wording: the single explanatory line emitted when the OS query
fails, "Could not get OS version: <reason>". -/
def couldNotGetOSVersionLine (reason : String) : String :=
  "Could not get OS version: " ++ reason ++ "\n"

/-- Model of libc `strsignal` for the handled signals: the canonical
descriptive name of a signal number. -/
def strsignal (signum : Nat) : String :=
  if signum = SIGSEGV then "Segmentation fault"
  else if signum = SIGABRT then "Aborted"
  else if signum = SIGFPE then "Floating point exception"
  else if signum = SIGBUS then "Bus error"
  else if signum = SIGILL then "Illegal instruction"
  else "Unknown signal " ++ Nat.repr signum

/-- `CrashLogUnix::LogError`: append "Crash reason:", the signal line and the
message line, followed by a blank separator line. -/
def LogError (signum : Nat) (message : String) (buf : String) : String :=
  buf ++ "Crash reason:\n Signal:  " ++ strsignal signum ++ " (" ++ Nat.repr signum
      ++ ")\n Message: " ++ message ++ "\n\n"

/-- Spec wording: the fixed three-line error block — a "Crash reason:" header
line, a line with the signal name and number, and a line with the message. -/
def errorBlockSpec (name : String) (signum : Nat) (message : String) : String :=
  "Crash reason:\n"
    ++ (" Signal:  " ++ name ++ " (" ++ Nat.repr signum ++ ")\n")
    ++ (" Message: " ++ message ++ "\n")

/-- The `{:02}` index formatting of the frame lines: zero-padded to
two digits. -/
def pad2 (i : Nat) : String :=
  if i < 10 then "0" ++ Nat.repr i else Nat.repr i

/-- One rendered stack frame: the format " [{:02}] {}\n" applied to the frame
index and its symbol string. -/
def frameLine (i : Nat) (msg : String) : String :=
  " [" ++ pad2 i ++ "] " ++ msg ++ "\n"

/-- Concatenation of a list of rendered lines. -/
def concatStrings (l : List String) : String :=
  l.foldr (fun a b => a ++ b) ""

/-- `CrashLogUnix::LogStacktrace`: append "Stacktrace:"; with glibc, capture
at most 64 frames (`void *trace[64]; trace_size = backtrace(trace, 64);`) and
append one line per captured frame from the resolved symbol strings;
otherwise append the degraded-mode marker; then a blank separator line.
`callstack` is the in-process call stack as symbol strings. -/
def LogStacktrace (glibc : Bool) (callstack : List String) (buf : String) : String :=
  let buf1 := buf ++ "Stacktrace:\n"
  let buf2 :=
    if glibc then
      (callstack.take 64).enum.foldl (fun acc p => acc ++ frameLine p.1 p.2) buf1
    else
      buf1 ++ " Not supported.\n"
  buf2 ++ "\n"

/-- `backtrace(trace, 64)` returns the number of frames written: the depth of
the call stack, capped at the size of the `trace` array. -/
def backtrace (callDepth : Nat) : Nat := min callDepth 64

/-- A possible result of `backtrace_symbols(trace, trace_size)` per its
contract: `none` when its internal allocation fails (the C call returns a
null pointer), otherwise an array of exactly `trace_size` symbol strings. -/
def backtraceSymbolsResult (trace_size : Nat) (r : Option (List String)) : Prop :=
  r = none ∨ ∃ l, r = some l ∧ l.length = trace_size

/-- The frame loop reads `messages[i]` for every `0 ≤ i < trace_size` with no
null or bounds guard; all those reads are in bounds exactly when the loop
body never runs or the symbol array exists with at least `trace_size`
entries. -/
def frameAccessesSafe (messages : Option (List String)) (trace_size : Nat) : Bool :=
  match messages with
  | none => trace_size == 0
  | some l => decide (trace_size ≤ l.length)

end CrashlogUnix

namespace CrashlogUnix

/-! ### Claims about the coordinator -/

/-- **C1.** On every invocation of the crash handler, the first five actions —
before the escape checks and before any report output — are exactly the resets
of the five handled signals to `SIG_DFL`, in the order of the signal set; the
first escape check is the sixth action; and after those five actions every
signal in the set has the OS-default disposition, whatever it was before. -/
theorem C1_handler_resets_signals_first (env : Env) (signum : Nat) :
    (HandleCrash env signum).take 5 = signals_to_handle.map Event.setDefault ∧
    (HandleCrash env signum).get? 5 = some Event.checkEmergency ∧
    ∀ (t : SigTable) (sig : Nat), sig ∈ signals_to_handle →
      applyEvents t ((HandleCrash env signum).take 5) sig = SigHandler.SIG_DFL := by
  rcases env with ⟨te, mg, bp, ms⟩
  refine ⟨?_, ?_, ?_⟩
  · cases te <;> cases mg <;> rfl
  · cases te <;> cases mg <;> rfl
  · intro t sig hsig
    have htake : (HandleCrash ⟨te, mg, bp, ms⟩ signum).take 5
        = signals_to_handle.map Event.setDefault := by
      cases te <;> cases mg <;> rfl
    rw [htake]
    simp only [signals_to_handle, SIGSEGV, SIGABRT, SIGFPE, SIGBUS, SIGILL,
      List.mem_cons, List.not_mem_nil, or_false] at hsig
    rcases hsig with h | h | h | h | h <;> subst h <;>
      simp [applyEvents, applyEvent, signal, signals_to_handle,
        SIGSEGV, SIGABRT, SIGFPE, SIGBUS, SIGILL]

/-- Witness for C1 at a concrete table and signal: after the first five actions
of the handler, `SIGSEGV`'s disposition, previously the crash handler itself,
is the OS default. -/
theorem C1_handler_resets_signals_first_witness :
    applyEvents (fun _ => SigHandler.handleCrash)
      ((HandleCrash ⟨false, false, false, false⟩ 11).take 5) SIGSEGV
      = SigHandler.SIG_DFL :=
  (C1_handler_resets_signals_first ⟨false, false, false, false⟩ 11).2.2
    (fun _ => SigHandler.handleCrash) SIGSEGV (by decide)

/-- **C2 (counterexample).** The claim says the escape message goes to the
standard error stream.  With the emergency escape condition true, the handler
prints — `fmt::print` with no file argument writes to standard output — and no
event of the trace writes to standard error. -/
theorem C2_escape_stderr_counterexample :
    (Env.mk true false false false).testEmergency = true ∧
    ((HandleCrash (Env.mk true false false false) SIGSEGV).any
      fun e => Event.isPrintTo OutStream.stderr e) = false ∧
    ((HandleCrash (Env.mk true false false false) SIGSEGV).any
      fun e => Event.isPrintTo OutStream.stdout e) = true :=
  ⟨rfl, rfl, rfl⟩

/-- **C2 (amended).** If either escape condition is true at crash time, the
handler prints a short human message to standard output, performs no report
or dump generation and no cleanup, and its last action is `abort()`. -/
theorem C2_escape_prints_stdout_and_aborts (env : Env) (signum : Nat)
    (h : env.testEmergency = true ∨ env.missingNewGRFs = true) :
    ((HandleCrash env signum).all fun e => !(Event.isMakeCrashLog e)) = true ∧
    (HandleCrash env signum).count Event.cleanup = 0 ∧
    ((HandleCrash env signum).any fun e => Event.isPrintTo OutStream.stdout e) = true ∧
    (HandleCrash env signum).getLast? = some Event.abort := by
  rcases env with ⟨te, mg, bp, ms⟩
  cases te <;> cases mg <;>
    first
      | exact ⟨rfl, rfl, rfl, rfl⟩
      | simp at h

/-- Witness for C2 (amended) at the concrete emergency environment. -/
theorem C2_escape_witness :
    ((HandleCrash (Env.mk true false false false) 11).all
      fun e => !(Event.isMakeCrashLog e)) = true ∧
    (HandleCrash (Env.mk true false false false) 11).getLast? = some Event.abort :=
  ⟨(C2_escape_prints_stdout_and_aborts (Env.mk true false false false) 11 (Or.inl rfl)).1,
   (C2_escape_prints_stdout_and_aborts (Env.mk true false false false) 11 (Or.inl rfl)).2.2.2⟩

/-- **C3.** Every execution of the crash handler ends in `abort()`: on every
path — both escape paths and the reporting path — the last trace event is
`abort` (so in particular the trace is never empty and the handler never
returns to the faulting code), and `abort` occurs exactly once. -/
theorem C3_always_terminates_by_abort (env : Env) (signum : Nat) :
    (HandleCrash env signum).getLast? = some Event.abort ∧
    (HandleCrash env signum).count Event.abort = 1 := by
  rcases env with ⟨te, mg, bp, ms⟩
  cases te <;> cases mg <;> cases bp <;> cases ms <;> exact ⟨rfl, rfl⟩

/-- **C4.** `InitialiseCrashLog` registers the crash handler for exactly the
signals in the signal set: every signal in
`{SIGSEGV, SIGABRT, SIGFPE, SIGBUS, SIGILL}` is mapped to the handler, and the
disposition of every other signal is left unchanged. -/
theorem C4_install_exact_signal_set (t : SigTable) (s : Nat) :
    InitialiseCrashLog t s =
      if s ∈ signals_to_handle then SigHandler.handleCrash else t s := by
  simp only [InitialiseCrashLog, signals_to_handle, List.foldl_cons, List.foldl_nil,
    signal, List.mem_cons, List.not_mem_nil, or_false]
  by_cases h1 : s = SIGSEGV <;> by_cases h2 : s = SIGABRT <;>
    by_cases h3 : s = SIGFPE <;> by_cases h4 : s = SIGBUS <;>
    by_cases h5 : s = SIGILL <;>
    simp [h1, h2, h3, h4, h5]

/-- **C8.** The dump writer reports its outcome as an integer status: positive
on success, negative on failure, and a distinct value for "unsupported"; and
on the reporting path — whatever the dump status, including failure — the
report-generation step is followed by exactly one run of the cleanup hook and
then the final `abort()`. -/
theorem C8_dump_status_and_cleanup (env : Env) (signum : Nat) :
    (0 < WriteCrashDump true true ∧
      WriteCrashDump true false < 0 ∧
      (∀ ok : Bool, WriteCrashDump false ok = WriteCrashDump_base) ∧
      WriteCrashDump_base ≠ WriteCrashDump true true ∧
      WriteCrashDump_base ≠ WriteCrashDump true false) ∧
    (env.testEmergency = false → env.missingNewGRFs = false →
      (HandleCrash env signum).drop 7
        = [Event.makeCrashLog signum (WriteCrashDump env.breakpad env.minidumpSucceeded),
           Event.cleanup, Event.abort] ∧
      (HandleCrash env signum).count Event.cleanup = 1 ∧
      (HandleCrash env signum).getLast? = some Event.abort) := by
  refine ⟨by decide, ?_⟩
  rcases env with ⟨te, mg, bp, ms⟩
  intro h1 h2
  subst h1; subst h2
  cases bp <;> cases ms <;> exact ⟨rfl, rfl, rfl⟩

/-- Witness for C8 at a concrete environment where the dump facility is
present and fails: cleanup still runs exactly once and the handler still
ends in `abort()`. -/
theorem C8_dump_status_and_cleanup_witness :
    (HandleCrash (Env.mk false false true false) 11).count Event.cleanup = 1 ∧
    (HandleCrash (Env.mk false false true false) 11).getLast? = some Event.abort :=
  ⟨((C8_dump_status_and_cleanup (Env.mk false false true false) 11).2 rfl rfl).2.1,
   ((C8_dump_status_and_cleanup (Env.mk false false true false) 11).2 rfl rfl).2.2⟩

/-- **C9.** The escape checks run in a fixed short-circuit order.  When the
emergency condition is true, the missing-NewGRFs condition is never evaluated,
the printed messages are exactly the emergency messages, the trace does not
depend on the missing-NewGRFs flag, and the handler aborts; when the emergency
condition is false, the emergency check (position 5) immediately precedes the
missing-NewGRFs check (position 6). -/
theorem C9_emergency_takes_precedence (env : Env) (signum : Nat) :
    (env.testEmergency = true →
      (HandleCrash env signum).count Event.checkNewGRFs = 0 ∧
      (HandleCrash env signum).filter Event.isPrintAny
        = emergencyMessages.map (Event.print OutStream.stdout) ∧
      HandleCrash env signum
        = HandleCrash (Env.mk true false env.breakpad env.minidumpSucceeded) signum ∧
      (HandleCrash env signum).getLast? = some Event.abort) ∧
    (env.testEmergency = false →
      (HandleCrash env signum).get? 5 = some Event.checkEmergency ∧
      (HandleCrash env signum).get? 6 = some Event.checkNewGRFs) := by
  rcases env with ⟨te, mg, bp, ms⟩
  constructor
  · intro h
    subst h
    cases mg <;> exact ⟨rfl, rfl, rfl, rfl⟩
  · intro h
    subst h
    cases mg <;> exact ⟨rfl, rfl⟩

/-- Witness for C9: with both escape conditions true the NewGRF check never
runs, and with the emergency condition false it runs right after the
emergency check. -/
theorem C9_emergency_takes_precedence_witness :
    (HandleCrash (Env.mk true true false false) 11).count Event.checkNewGRFs = 0 ∧
    (HandleCrash (Env.mk false true false false) 11).get? 6
      = some Event.checkNewGRFs :=
  ⟨((C9_emergency_takes_precedence (Env.mk true true false false) 11).1 rfl).1,
   ((C9_emergency_takes_precedence (Env.mk false true false false) 11).2 rfl).2⟩

/-! ### Claims about the section producers -/

/-- **C5.** The OS-version producer: on `uname` failure it appends exactly the
single explanatory line "Could not get OS version: <reason>" (one line, given
the reason itself contains no newline) and returns the buffer; on success it
appends the system name, release, version and machine strings, in that
order. -/
theorem C5_os_version_section (uname : Except String Utsname) (buf : String) :
    (∀ reason, uname = Except.error reason →
      LogOSVersion uname buf = buf ++ couldNotGetOSVersionLine reason ∧
      (reason.toList.count '\n' = 0 →
        (couldNotGetOSVersionLine reason).toList.count '\n' = 1)) ∧
    (∀ u, uname = Except.ok u →
      ∃ p1 p2 p3 p4 p5 : String,
        LogOSVersion uname buf
          = buf ++ p1 ++ u.sysname ++ p2 ++ u.release ++ p3 ++ u.version
              ++ p4 ++ u.machine ++ p5) := by
  constructor
  · intro reason hu
    subst hu
    constructor
    · apply String.ext
      simp [LogOSVersion, couldNotGetOSVersionLine, String.data_append]
    · intro hcount
      simp only [String.toList] at hcount
      simp [couldNotGetOSVersionLine, String.toList, String.data_append,
        List.count_append, hcount]
  · intro u hu
    subst hu
    exact ⟨"Operating system:\n Name:     ", "\n Release:  ", "\n Version:  ",
      "\n Machine:  ", "\n", rfl⟩

/-- Witness for C5 at a concrete failing `uname` call. -/
theorem C5_os_version_section_witness :
    LogOSVersion (Except.error "Operation not permitted") ""
      = "" ++ couldNotGetOSVersionLine "Operation not permitted" ∧
    (couldNotGetOSVersionLine "Operation not permitted").toList.count '\n' = 1 :=
  ⟨((C5_os_version_section (Except.error "Operation not permitted") "").1
      "Operation not permitted" rfl).1,
   ((C5_os_version_section (Except.error "Operation not permitted") "").1
      "Operation not permitted" rfl).2 (by decide)⟩

/-- Appending one frame line per list element, left to right, is the
concatenation of the rendered lines. -/
theorem foldl_frameLine_concat (l : List (Nat × String)) :
    ∀ b : String, l.foldl (fun acc p => acc ++ frameLine p.1 p.2) b
      = b ++ concatStrings (l.map fun p => frameLine p.1 p.2) := by
  induction l with
  | nil => intro b; exact (String.append_empty b).symm
  | cons hd tl ih =>
      intro b
      show tl.foldl _ (b ++ frameLine hd.1 hd.2) = _
      rw [ih (b ++ frameLine hd.1 hd.2)]
      exact String.append_assoc ..

/-- **C6.** The stack-trace producer: without the platform capture facility
the section is exactly the degraded-mode marker and no frame lines; with it,
the section is one index-prefixed line per captured frame, the number of
captured frames is what `backtrace` returns for the call depth, and it never
exceeds 64. -/
theorem C6_stacktrace_section (callstack : List String) (buf : String) :
    LogStacktrace false callstack buf = buf ++ "Stacktrace:\n Not supported.\n\n" ∧
    LogStacktrace true callstack buf
      = buf ++ "Stacktrace:\n"
          ++ concatStrings ((callstack.take 64).enum.map fun p => frameLine p.1 p.2)
          ++ "\n" ∧
    (callstack.take 64).length = backtrace callstack.length ∧
    (callstack.take 64).length ≤ 64 := by
  refine ⟨?_, ?_, ?_, ?_⟩
  · show ((buf ++ "Stacktrace:\n") ++ " Not supported.\n") ++ "\n" = _
    rw [String.append_assoc, String.append_assoc]
    exact congrArg (buf ++ ·) (by rfl)
  · show ((callstack.take 64).enum.foldl (fun acc p => acc ++ frameLine p.1 p.2)
        (buf ++ "Stacktrace:\n")) ++ "\n" = _
    rw [foldl_frameLine_concat]
  · simp [backtrace, List.length_take, Nat.min_comm]
  · rw [List.length_take]
    omega

/-- **C7.** The error-section producer renders the signal's descriptive name,
its numeric value and the supplied message as the three-line block the spec
describes (followed by the blank separator line), and the block has exactly
three lines whenever the name, the number's digits and the message contain no
newline themselves. -/
theorem C7_error_section (signum : Nat) (message : String) (buf : String) :
    LogError signum message buf
      = buf ++ errorBlockSpec (strsignal signum) signum message ++ "\n" ∧
    ((strsignal signum).toList.count '\n' = 0 →
      (Nat.repr signum).toList.count '\n' = 0 →
      message.toList.count '\n' = 0 →
      (errorBlockSpec (strsignal signum) signum message).toList.count '\n' = 3) := by
  constructor
  · apply String.ext
    simp [LogError, errorBlockSpec, String.data_append]
  · intro h1 h2 h3
    simp only [String.toList] at h1 h2 h3
    simp [errorBlockSpec, String.toList, String.data_append, List.count_append,
      h1, h2, h3]

/-- Witness for C7 at the segmentation-violation signal with an empty
message. -/
theorem C7_error_section_witness :
    LogError 11 "" "" = "" ++ errorBlockSpec (strsignal 11) 11 "" ++ "\n" ∧
    (errorBlockSpec (strsignal 11) 11 "").toList.count '\n' = 3 :=
  ⟨(C7_error_section 11 "" "").1,
   (C7_error_section 11 "" "").2 (by decide) (by decide) (by decide)⟩

/-- **C10 (counterexample).** The claim that every `messages[i]` read in the
frame loop is safe for every possible `backtrace_symbols` result is false:
a null result (allocation failure) is a possible result, and with one
captured frame the loop then reads through a null pointer. -/
theorem C10_unguarded_access_counterexample :
    backtraceSymbolsResult 1 none ∧ frameAccessesSafe none 1 = false :=
  ⟨Or.inl rfl, rfl⟩

/-- **C10 (amended).** Whenever symbol resolution succeeds (the call returns
a non-null array, which its contract then sizes to exactly `trace_size`
entries), every read `messages[i]` with `0 ≤ i < trace_size` is in bounds. -/
theorem C10_access_safe_when_symbols_resolve (trace_size : Nat)
    (r : Option (List String)) (hr : backtraceSymbolsResult trace_size r)
    (hsome : r ≠ none) :
    frameAccessesSafe r trace_size = true := by
  rcases hr with h | ⟨l, hl, hlen⟩
  · exact absurd h hsome
  · subst hl
    simp [frameAccessesSafe, hlen]

/-- Witness for C10 (amended) at a two-frame resolved backtrace. -/
theorem C10_access_safe_witness :
    frameAccessesSafe (some ["frame0", "frame1"]) 2 = true :=
  C10_access_safe_when_symbols_resolve 2 (some ["frame0", "frame1"])
    (Or.inr ⟨["frame0", "frame1"], rfl, rfl⟩) (Option.some_ne_none _)

end CrashlogUnix
